import Mathlib

/-!
Verification development for the E.D.I.T.H. voice-assistant CLI
(src/EDITH.py).  The Python program is shallowly embedded: every
pure helper becomes a Lean function, stateful code is explicit state
passing over `EdithState`, side effects (speaking, printing, opening a
browser, launching an application, invoking the generative model) are
recorded as an ordered list of `Event`s, and every fallible external
call (tokenizer encode, model generate/decode) is an oracle returning
`Except`.  Machine behaviour that is genuinely external (audio capture,
the HTTP weather request body, the TTS engine) is out of scope of all
properties considered here; the events record exactly what the core
logic hands to those adapters.
-/

/-- Observable effects of the program, in program order.
`handlerInvoked n` is recorded each time the callable registered under
name `n` in the COMMANDS map is called by the dispatch loop
(src/EDITH.py lines 422-445); `fallbackResolver l` is recorded when the
dispatcher routes an unrecognized line to `edith_analyze`
(lines 449-451); `brainThink t` is recorded when `edith_analyze` invokes
the generative capability `edith_brain.think` (line 234). -/
inductive Event where
  | handlerInvoked (name : String)
  | fallbackResolver (line : String)
  | speak (text : String)
  | consolePrint (text : String)
  | browserOpen (url : String)
  | appLaunch (argv : List String)
  | httpGet (url : String)
  | brainThink (input : String)
deriving DecidableEq

/-- A reminder record: `{"task": task, "timestamp": timestamp}`
(src/EDITH.py line 268). -/
structure Reminder where
  task : String
  timestamp : String
deriving DecidableEq

/-- State of `EdithBrain` (src/EDITH.py lines 57-94): whether
`_load_model` succeeded (`is_ready`, line 79-81) and the rolling
`chat_history_ids` tensor, modelled as an optional list of token ids
(line 66). -/
structure BrainState where
  ready : Bool
  chatHistoryIds : Option (List Nat)
deriving DecidableEq

/-- Oracle for the DialoGPT tokenizer/model pair.  `encode` models
`tokenizer.encode` (line 90), `generate` models `model.generate`
(line 92), `decode` models `tokenizer.decode` (line 93); each may fail,
modelling a raised exception, with the exception text as the error. -/
structure GenModel where
  eosToken : String
  encode : String → Except String (List Nat)
  generate : List Nat → Except String (List Nat)
  decode : List Nat → Except String String

/-- The mutable globals of src/EDITH.py threaded explicitly:
`reminders` (line 138), the brain state (line 140), and oracles for the
ambient environment: the three `strftime` renderings of
`datetime.datetime.now()` used by the program (lines 167-169, 267),
`platform.system().lower()` (line 190), and a stream backing
`random.randint` / `random.choice` (lines 248, 398). -/
structure EdithState where
  reminders : List Reminder
  brain : BrainState
  stampStr : String
  dateStr : String
  timeStr : String
  osName : String
  randoms : List Nat
deriving DecidableEq

/-- Build a state with the reminder list replaced (a `reminders.append`
or `reminders.clear` result). -/
def withReminders (st : EdithState) (rs : List Reminder) : EdithState :=
  ⟨rs, st.brain, st.stampStr, st.dateStr, st.timeStr, st.osName, st.randoms⟩

/-- Build a state with the brain replaced. -/
def withBrain (st : EdithState) (b : BrainState) : EdithState :=
  ⟨st.reminders, b, st.stampStr, st.dateStr, st.timeStr, st.osName, st.randoms⟩

/-- Pop one value from the random oracle stream (models one call of
`random.randint` / `random.choice`). -/
def nextRand (st : EdithState) : Nat × EdithState :=
  match st.randoms with
  | [] => (99, st)
  | n :: rest => (n, ⟨st.reminders, st.brain, st.stampStr, st.dateStr, st.timeStr, st.osName, rest⟩)

/-- Python `str.lower()` (ASCII range, which covers every string the
program compares). -/
def lowerStr (s : String) : String :=
  String.mk (s.data.map Char.toLower)

/-- Python `str.strip()`. -/
def stripStr (s : String) : String :=
  String.mk (((s.data.dropWhile Char.isWhitespace).reverse.dropWhile Char.isWhitespace).reverse)

/-- Python `str.startswith(pre)`. -/
def strStartsWith (s pre : String) : Bool :=
  pre.data.isPrefixOf s.data

/-- Occurrence of a pattern as a contiguous sublist. -/
def subListOccurs (pat : List Char) : List Char → Bool
  | [] => pat.isEmpty
  | c :: rest => pat.isPrefixOf (c :: rest) || subListOccurs pat rest

/-- Python substring test `pat in s`. -/
def strContains (s pat : String) : Bool :=
  subListOccurs pat.data s.data

/-- Python `str.replace(" ", "+")` as used by `search_web`
(src/EDITH.py line 212). -/
def plusify (s : String) : String :=
  String.mk (s.data.map fun c => if c = ' ' then '+' else c)

/-- Split a character list at the first space, if any. -/
def breakAtFirstSpace : List Char → List Char × Option (List Char)
  | [] => ([], none)
  | c :: rest =>
      if c = ' ' then ([], some rest)
      else
        let r := breakAtFirstSpace rest
        (c :: r.1, r.2)

/-- Python `line.split(" ", 1)` followed by the argument defaulting of
src/EDITH.py lines 418-420: the first token and the remainder (empty
string when the line has no space). -/
def splitAction (line : String) : String × String :=
  match breakAtFirstSpace line.data with
  | (a, none) => (String.mk a, "")
  | (a, some b) => (String.mk a, String.mk b)

/-- Split a character list at the first occurrence of `pat`
(Python `s.split(pat, 1)`); `none` when `pat` does not occur. -/
def breakAtFirstSub (pat : List Char) : List Char → Option (List Char × List Char)
  | [] => if pat.isEmpty then some ([], []) else none
  | c :: rest =>
      if pat.isPrefixOf (c :: rest) then some ([], (c :: rest).drop pat.length)
      else
        match breakAtFirstSub pat rest with
        | none => none
        | some r => some (c :: r.1, r.2)

/-- `USER_PROFILE` (src/EDITH.py lines 38-43). -/
def USER_PROFILE_name : String := "Devansh Prabhakar"

def USER_PROFILE_location : String := "Mumbai"

def USER_PROFILE_interests : List String := ["coding", "space exploration", "cybersecurity"]

def USER_PROFILE_status_level : String := "Optimal"

/-- `OPENWEATHERMAP_API_KEY` (src/EDITH.py line 46): the shipped
placeholder. -/
def OPENWEATHERMAP_API_KEY : String := "YOUR_OPENWEATHERMAP_API_KEY_HERE"

/-- `PROGRAMS` (src/EDITH.py lines 49-53). -/
def PROGRAMS : List (String × List (String × String)) :=
  [("windows", [("notepad", "notepad.exe"), ("calculator", "calc.exe"),
                ("paint", "mspaint.exe"), ("cmd", "cmd.exe"), ("explorer", "explorer.exe")]),
   ("darwin", [("safari", "Safari"), ("notes", "Notes"),
               ("calculator", "Calculator"), ("terminal", "Terminal")]),
   ("linux", [("terminal", "gnome-terminal"), ("calculator", "gnome-calculator"),
              ("browser", "firefox")])]

/-- `tell_date_time` (src/EDITH.py lines 165-171). -/
def tell_date_time (st : EdithState) : EdithState × List Event :=
  (st, [Event.speak ("The current date is **" ++ st.dateStr ++ "**, and the time is **"
      ++ st.timeStr ++ "**.")])

/-- `open_website` (src/EDITH.py lines 180-185): speaks first with the
original target, then prepends `https://` unless the target already
starts with `http`, then opens the browser. -/
def open_website (st : EdithState) (url : String) : EdithState × List Event :=
  (st, [Event.speak ("Executing web traversal to **" ++ url ++ "**."),
        Event.browserOpen (if strStartsWith url "http" then url else "https://" ++ url)])

/-- `open_application` (src/EDITH.py lines 187-207): looks the
lower-cased, stripped name up in the per-OS `PROGRAMS` table; a missing
entry is reported and aborts, otherwise the launch is attempted
(`Popen(["open","-a",cmd])` on darwin, `Popen(cmd, shell=True)`
elsewhere). -/
def open_application (st : EdithState) (app_name : String) : EdithState × List Event :=
  let app_name_processed := stripStr (lowerStr app_name)
  let os_programs := (PROGRAMS.lookup st.osName).getD []
  match os_programs.lookup app_name_processed with
  | none =>
      (st, [Event.speak ("I don\x27t have a configuration for the application \x27"
          ++ app_name ++ "\x27.")])
  | some command_to_run =>
      (st, [Event.speak ("Attempting to interface with local application: **" ++ app_name ++ "**."),
            Event.appLaunch (if st.osName = "darwin" then ["open", "-a", command_to_run]
              else [command_to_run]),
            Event.speak ("Affirmative. Opening " ++ app_name ++ ".")])

/-- `open_target` (src/EDITH.py lines 173-178): a target containing a
`.` is treated as a website, otherwise as a local application. -/
def open_target (st : EdithState) (target : String) : EdithState × List Event :=
  if strContains target "." then open_website st target
  else open_application st target

/-- `search_web` (src/EDITH.py lines 209-212). -/
def search_web (st : EdithState) (query : String) : EdithState × List Event :=
  (st, [Event.speak ("Querying global information network for: **" ++ query ++ "**."),
        Event.browserOpen ("https://www.google.com/search?q=" ++ plusify query)])

/-- `get_weather` (src/EDITH.py lines 294-328).  With the shipped
placeholder API key the function always reports the missing key and
returns; the network path records the request URL (its response
handling is unreachable with the source's key constant). -/
def get_weather (st : EdithState) (location_input : String) : EdithState × List Event :=
  if OPENWEATHERMAP_API_KEY = "YOUR_OPENWEATHERMAP_API_KEY_HERE" then
    (st, [Event.speak "Weather module is currently uncalibrated. API key is missing. Please update the configuration file."])
  else
    let location_query := plusify (stripStr location_input)
    (st, [Event.httpGet ("http://api.openweathermap.org/data/2.5/weather?q=" ++ location_query
        ++ "&appid=" ++ OPENWEATHERMAP_API_KEY ++ "&units=metric")])

/-- The missing-task-parameter report of `set_reminder`
(src/EDITH.py line 271). -/
def missingTaskMsg : String :=
  "The task parameter is missing. Please state the command clearly, for example: \x27set task review code\x27."

/-- `set_reminder` (src/EDITH.py lines 253-271): splits the command
line at the word `task`; a non-empty stripped remainder is appended to
the reminder store with the current timestamp, otherwise the
missing-parameter report is spoken. -/
def set_reminder (st : EdithState) (command_line : String) : EdithState × List Event :=
  let task : Option String :=
    match breakAtFirstSub "task".data command_line.data with
    | some r => some (stripStr (String.mk r.2))
    | none => none
  match task with
  | some t =>
      if t ≠ "" then
        (withReminders st (st.reminders ++ [⟨t, st.stampStr⟩]),
         [Event.speak ("Task **\x27" ++ t ++ "\x27** successfully logged at " ++ st.stampStr
             ++ ". Priority set to standard.")])
      else
        (st, [Event.speak missingTaskMsg])
  | none => (st, [Event.speak missingTaskMsg])

/-- The numbered lines printed by `view_reminders`
(src/EDITH.py line 281). -/
def reminderLines (rs : List Reminder) : List Event :=
  rs.enum.map fun p =>
    Event.consolePrint ("  " ++ toString (p.1 + 1) ++ ": Logged " ++ p.2.timestamp
        ++ " - **" ++ p.2.task ++ "**")

/-- `view_reminders` (src/EDITH.py lines 273-281). -/
def view_reminders (st : EdithState) : EdithState × List Event :=
  if st.reminders = [] then
    (st, [Event.speak "No active tasks are currently logged in the memory matrix."])
  else
    (st, Event.speak "Displaying active task log:" :: reminderLines st.reminders)

/-- `clear_reminders` (src/EDITH.py lines 283-290). -/
def clear_reminders (st : EdithState) : EdithState × List Event :=
  if st.reminders = [] then
    (st, [Event.speak "Task log is empty. No action required."])
  else
    (withReminders st [],
     [Event.speak "All active tasks have been successfully purged from the log. Memory status: Clear."])

/-- `ai_text_generation` (src/EDITH.py lines 241-249); `random.choice`
consumes one value from the random oracle stream. -/
def ai_text_generation (st : EdithState) : EdithState × List Event :=
  let prompts : List String :=
    ["Hypothesis: The integration of quantum computing will reduce current processing time metrics by a factor of 10^9 within the next fiscal cycle. Key challenges involve qubit stability and environmental decoherence.",
     "Analytical Report: Observed data suggests a correlation between modular coding architecture and a 42% reduction in post-deployment critical failures. Standardization is mandatory for scaling.",
     "System Log Analysis: External API latency spike detected at 02:45 UTC, attributed to a transient network bottleneck on the European gateway. No data loss occurred, but redundancy protocols were activated."]
  let r := nextRand st
  (r.2, [Event.speak ("**Analytical Synthesis Complete.** Displaying generated report: "
      ++ prompts.getD (r.1 % prompts.length) "")])

/-- The fixed offline reply of `EdithBrain.think`
(src/EDITH.py line 88). -/
def offlineMsg : String :=
  "My advanced conversational matrix is offline. I cannot process the query."

/-- The tag prepended to the underlying cause when `edith_analyze`
catches an exception from the brain (src/EDITH.py line 236). -/
def aiErrorTag : String := "A critical error occurred during AI inference: "

/-- `torch.cat([chat_history_ids, new_ids])` with the `None` check of
src/EDITH.py line 91. -/
def histCat (hist : Option (List Nat)) (newIds : List Nat) : List Nat :=
  match hist with
  | some h => h ++ newIds
  | none => newIds

/-- `EdithBrain.think` (src/EDITH.py lines 83-94).  The offline check
returns the fixed message; otherwise the input is encoded, concatenated
onto the history, and generated from.  `chat_history_ids` is assigned
(line 92) before the decode of line 93, so a decode failure still keeps
the new history; a failure of encode or generate leaves the history
untouched.  An `Except.error` result models an exception propagating to
the caller. -/
def think (m : GenModel) (b : BrainState) (user_input : String) :
    BrainState × Except String String :=
  if b.ready then
    match m.encode (user_input ++ m.eosToken) with
    | Except.error e => (b, Except.error e)
    | Except.ok new_user_input_ids =>
        let bot_input_ids := histCat b.chatHistoryIds new_user_input_ids
        match m.generate bot_input_ids with
        | Except.error e => (b, Except.error e)
        | Except.ok gen_ids =>
            let b2 : BrainState := ⟨b.ready, some gen_ids⟩
            match m.decode (gen_ids.drop bot_input_ids.length) with
            | Except.error e => (b2, Except.error e)
            | Except.ok response => (b2, Except.ok response)
  else (b, Except.ok offlineMsg)

/-- The canned replies of `edith_analyze` (src/EDITH.py lines 221-230),
with the `USER_PROFILE` interpolations applied. -/
def statusReply : String :=
  "My core systems are operating within defined parameters. I am fully engaged and ready for high-level information processing."

def riskReply : String :=
  "Risk assessment initiated. While no immediate threats are detected, I recommend reviewing best practices for **" ++ USER_PROFILE_interests.getD 2 "" ++ "** to maintain network integrity."

def friendReply : String :=
  "That is easy. My friend and primary collaborator is **" ++ USER_PROFILE_name ++ "**."

def makerReply : String :=
  "My designation originates from my primary user and programmer, **" ++ USER_PROFILE_name ++ "**."

def inspireReply : String :=
  "Your current trajectory is optimal. Maintain focus on complex problem-solving. Success is the logical result of persistent effort."

/-- The `try`/`except` fallback of `edith_analyze`
(src/EDITH.py lines 231-239): invoke the brain; on an exception, print
the error and build the tagged failure reply; finally, speak. -/
def analyzeFallback (m : GenModel) (st : EdithState) (user_input : String) :
    EdithState × List Event :=
  let r := think m st.brain user_input
  match r.2 with
  | Except.ok response =>
      (withBrain st r.1, [Event.brainThink user_input, Event.speak response])
  | Except.error e =>
      (withBrain st r.1,
       [Event.brainThink user_input,
        Event.consolePrint ("Error in edith_analyze: " ++ e),
        Event.speak (aiErrorTag ++ e)])

/-- `edith_analyze` (src/EDITH.py lines 216-239): the fixed-priority
`if`/`elif` chain of keyword rules over the lower-cased input, falling
back to the conversational brain. -/
def edith_analyze (m : GenModel) (st : EdithState) (user_input : String) :
    EdithState × List Event :=
  let input_lower := lowerStr user_input
  if ["how are you", "status report", "condition"].any (fun q => strContains input_lower q) then
    (st, [Event.speak statusReply])
  else if ["security threat", "vulnerability", "risk assessment"].any (fun q => strContains input_lower q) then
    (st, [Event.speak riskReply])
  else if ["who is your friend", "who\x27s your friend"].any (fun q => strContains input_lower q) then
    (st, [Event.speak friendReply])
  else if ["who created you", "your maker"].any (fun q => strContains input_lower q) then
    (st, [Event.speak makerReply])
  else if ["inspire me", "motivate", "positive"].any (fun q => strContains input_lower q) then
    (st, [Event.speak inspireReply])
  else analyzeFallback m st user_input

/-- The rule list of the response resolver, in source order
(src/EDITH.py lines 221-230): trigger keywords paired with the canned
reply.  The order is part of the contract. -/
def rules : List (List String × String) :=
  [(["how are you", "status report", "condition"], statusReply),
   (["security threat", "vulnerability", "risk assessment"], riskReply),
   (["who is your friend", "who\x27s your friend"], friendReply),
   (["who created you", "your maker"], makerReply),
   (["inspire me", "motivate", "positive"], inspireReply)]

/-- A rule matches when any of its trigger keywords is a substring of
the (lower-cased) input. -/
def ruleMatches (low : String) (r : List String × String) : Bool :=
  r.1.any (fun q => strContains low q)

/-- First-match resolution over an ordered rule list; mirrors the
`if`/`elif` chain of `edith_analyze`. -/
def resolveCanned (low : String) : List (List String × String) → Option String
  | [] => none
  | r :: rs => if ruleMatches low r then some r.2 else resolveCanned low rs

/-- `display_help` (src/EDITH.py lines 369-388). -/
def display_help (st : EdithState) : EdithState × List Event :=
  let sep := String.mk (List.replicate 70 '=')
  let help_message :=
    "Available Commands for E.D.I.T.H.:\n  - **time**: Retrieve current date and time.\n  - **status**: Get E.D.I.T.H.\x27s current operational status.\n  - **analyze [query]**: Initiate a core analytical conversation (e.g., \x27analyze how are you\x27).\n  - **generate report**: Create a complex, simulated analytical report.\n  - **weather [city]**: Fetch environmental data (e.g., \x27weather London\x27).\n  - **search [query]**: Search the web for a given query.\n  - **open [app/website]**: Opens an application or website (e.g., \x27open notepad\x27, \x27open google.com\x27).\n  - **set task [task]**: Log a new task (e.g., \x27set task buy milk\x27).\n  - **view tasks**: Display the list of active tasks.\n  - **clear tasks**: Purge all tasks from the log.\n  - **help**: Display this command index.\n  - **exit**: Shut down E.D.I.T.H.\x27s console."
  (st, [Event.consolePrint ("\n" ++ sep), Event.consolePrint help_message, Event.consolePrint sep])

/-- The shutdown farewell spoken by the `exit`/`quit`/`shutdown`
lambdas (src/EDITH.py lines 407-409). -/
def goodbyeMsg : String :=
  "System shutdown initialized. Standby mode activated. Goodbye, " ++ USER_PROFILE_name

/-- Result of calling one entry of the COMMANDS map: a plain
(synchronous) call performs its effects at call time; a call of a
function that merely builds a coroutine (`asyncio.iscoroutine` of the
result is true) performs its effects only when the coroutine is
awaited. -/
inductive CallResult where
  | sync (st : EdithState) (evs : List Event)
  | coro (k : EdithState → EdithState × List Event)

/-- An entry of the COMMANDS map together with the call-shape metadata
the dispatcher inspects at lines 425-445: `iscoroutinefunction`,
`__name__ == "<lambda>"`, and `__code__.co_argcount`. -/
inductive Handler where
  | coroutineFn (f : String → EdithState → EdithState × List Event)
  | namedUnary (f : String → EdithState → EdithState × List Event)
  | namedNullary (f : EdithState → EdithState × List Event)
  | lambdaUnary (f : String → EdithState → CallResult)
  | lambdaNullary (f : EdithState → CallResult)

/-- The `COMMANDS` dictionary lookup (src/EDITH.py lines 395-410), as a
function from the action token to the registered handler.  Each lambda
is transcribed with its routing condition; lambdas whose else-branch
calls the async `edith_analyze` return an un-awaited coroutine there. -/
def commandsLookup (m : GenModel) (a : String) : Option Handler :=
  if a = "help" then some (Handler.namedNullary display_help)
  else if a = "time" then some (Handler.namedNullary tell_date_time)
  else if a = "status" then some (Handler.lambdaNullary fun st =>
    let r := nextRand st
    CallResult.sync r.2 [Event.speak ("Current operational status: **" ++ USER_PROFILE_status_level
        ++ "**. All modules are functioning with " ++ toString r.1 ++ "% efficiency.")])
  else if a = "generate" then some (Handler.lambdaUnary fun arg st =>
    if arg = "report" then
      let r := ai_text_generation st
      CallResult.sync r.1 r.2
    else CallResult.coro (fun s => edith_analyze m s ("generate " ++ arg)))
  else if a = "view" then some (Handler.lambdaUnary fun arg st =>
    if arg = "tasks" then
      let r := view_reminders st
      CallResult.sync r.1 r.2
    else CallResult.coro (fun s => edith_analyze m s ("view " ++ arg)))
  else if a = "clear" then some (Handler.lambdaUnary fun arg st =>
    if arg = "tasks" then
      let r := clear_reminders st
      CallResult.sync r.1 r.2
    else CallResult.coro (fun s => edith_analyze m s ("clear " ++ arg)))
  else if a = "analyze" then some (Handler.coroutineFn (fun input st => edith_analyze m st input))
  else if a = "weather" then some (Handler.namedUnary (fun arg st => get_weather st arg))
  else if a = "search" then some (Handler.namedUnary (fun arg st => search_web st arg))
  else if a = "open" then some (Handler.namedUnary (fun arg st => open_target st arg))
  else if a = "set" then some (Handler.lambdaUnary fun arg st =>
    if strStartsWith arg "task" then
      let r := set_reminder st ("set " ++ arg)
      CallResult.sync r.1 r.2
    else CallResult.coro (fun s => edith_analyze m s ("set " ++ arg)))
  else if a = "exit" then some (Handler.lambdaNullary fun st =>
    CallResult.sync st [Event.speak goodbyeMsg])
  else if a = "quit" then some (Handler.lambdaNullary fun st =>
    CallResult.sync st [Event.speak goodbyeMsg])
  else if a = "shutdown" then some (Handler.lambdaNullary fun st =>
    CallResult.sync st [Event.speak goodbyeMsg])
  else none

/-- The key set of the COMMANDS map. -/
def registeredNames : List String :=
  ["help", "time", "status", "generate", "view", "clear", "analyze",
   "weather", "search", "open", "set", "exit", "quit", "shutdown"]

/-- The dispatch of one matched command (src/EDITH.py lines 423-445).
A coroutine function is awaited once; a named plain function is called
once with the arity recorded at registration; a lambda is routed
through line 439 (or 441 for a nullary lambda):
`await f(arg) if asyncio.iscoroutine(f(arg)) else f(arg)`.  Evaluating
that conditional calls the lambda once to test the result; the test's
branch then calls it a second time.  When the first call returned a
coroutine, that first coroutine is discarded un-run and only the second
call's coroutine is awaited; when the first call was synchronous its
effects have already happened, and the second call repeats them. -/
def runCommand (name : String) (h : Handler) (arg : String) (st : EdithState) :
    EdithState × List Event :=
  match h with
  | Handler.coroutineFn f =>
      let r := f arg st
      (r.1, Event.handlerInvoked name :: r.2)
  | Handler.namedUnary f =>
      let r := f arg st
      (r.1, Event.handlerInvoked name :: r.2)
  | Handler.namedNullary f =>
      let r := f st
      (r.1, Event.handlerInvoked name :: r.2)
  | Handler.lambdaUnary f =>
      match f arg st with
      | CallResult.sync st1 evs1 =>
          match f arg st1 with
          | CallResult.sync st2 evs2 =>
              (st2, (Event.handlerInvoked name :: evs1) ++ (Event.handlerInvoked name :: evs2))
          | CallResult.coro k =>
              let r := k st1
              (r.1, (Event.handlerInvoked name :: evs1) ++ (Event.handlerInvoked name :: r.2))
      | CallResult.coro _ =>
          match f arg st with
          | CallResult.sync st1 evs1 =>
              (st1, Event.handlerInvoked name :: Event.handlerInvoked name :: evs1)
          | CallResult.coro k =>
              let r := k st
              (r.1, Event.handlerInvoked name :: Event.handlerInvoked name :: r.2)
  | Handler.lambdaNullary f =>
      match f st with
      | CallResult.sync st1 evs1 =>
          match f st1 with
          | CallResult.sync st2 evs2 =>
              (st2, (Event.handlerInvoked name :: evs1) ++ (Event.handlerInvoked name :: evs2))
          | CallResult.coro k =>
              let r := k st1
              (r.1, (Event.handlerInvoked name :: evs1) ++ (Event.handlerInvoked name :: r.2))
      | CallResult.coro _ =>
          match f st with
          | CallResult.sync st1 evs1 =>
              (st1, Event.handlerInvoked name :: Event.handlerInvoked name :: evs1)
          | CallResult.coro k =>
              let r := k st
              (r.1, Event.handlerInvoked name :: Event.handlerInvoked name :: r.2)

/-- Routing of one non-empty acquired line (src/EDITH.py lines
418-451): split off the first token, dispatch to the registered handler
when the token is registered (the returned Bool signals the terminal
check of line 447), otherwise route the full original line to
`edith_analyze`. -/
def process_line (m : GenModel) (st : EdithState) (line : String) :
    EdithState × List Event × Bool :=
  let p := splitAction line
  match commandsLookup m p.1 with
  | some h =>
      let r := runCommand p.1 h p.2 st
      (r.1, r.2, ["exit", "quit", "shutdown"].contains p.1)
  | none =>
      let r := edith_analyze m st line
      (r.1, Event.fallbackResolver line :: r.2, false)

/-- The main session loop of `start_edith_cli` (src/EDITH.py lines
412-451) over the sequence of lines returned by `listen_for_command`:
an empty line is skipped (lines 415-416), otherwise the line is routed,
and a terminal action breaks the loop (lines 447-448). -/
def sessionRun (m : GenModel) : EdithState → List String → EdithState × List Event
  | st, [] => (st, [])
  | st, line :: rest =>
      if line = "" then sessionRun m st rest
      else
        let r := process_line m st line
        if r.2.2 then (r.1, r.2.1)
        else
          let r2 := sessionRun m r.1 rest
          (r2.1, r.2.1 ++ r2.2)

/-- Count the occurrences of one event in a trace. -/
def countEvent (ev : Event) : List Event → Nat
  | [] => 0
  | e :: rest => (if e = ev then 1 else 0) + countEvent ev rest

/-- A concrete oracle for the generative model used in concrete runs:
encoding yields the input length, generation appends one token,
decoding yields a fixed reply. -/
def mOk : GenModel :=
  ⟨"", fun s => Except.ok [s.length], fun l => Except.ok (l ++ [0]), fun _ => Except.ok "hello"⟩

/-- A generative-model oracle whose `generate` raises. -/
def mFail : GenModel :=
  ⟨"", fun s => Except.ok [s.length], fun _ => Except.error "boom", fun _ => Except.ok "hello"⟩

/-- A loaded brain with no prior conversation. -/
def brainReady : BrainState := ⟨true, none⟩

/-- A concrete initial state: empty reminder store, loaded brain, fixed
clock renderings, linux, empty random stream. -/
def st0 : EdithState :=
  ⟨[], brainReady, "2026-10-12 00:00", "Sunday, 12 October 2026", "12:00 AM", "linux", []⟩

/-- `st0` with a brain whose model failed to load. -/
def stOffline : EdithState :=
  ⟨[], ⟨false, none⟩, "2026-10-12 00:00", "Sunday, 12 October 2026", "12:00 AM", "linux", []⟩

/-! ## Theorems -/

/-- C9: For every empty input line, the router performs no dispatch and
no resolver call: processing an empty line is identical to processing
the rest of the input, and a session consisting only of an empty line
produces no events and leaves the state unchanged. -/
theorem C9_empty_line_no_dispatch (m : GenModel) (st : EdithState) (rest : List String) :
    sessionRun m st ("" :: rest) = sessionRun m st rest ∧
    sessionRun m st [""] = (st, []) :=
  ⟨rfl, rfl⟩

/-- C1 is refuted by the code: for a dispatched line whose first token
is bound to a lambda in the COMMANDS map (here `"status"`), the
dispatcher's `await f() if asyncio.iscoroutine(f()) else f()` step
(src/EDITH.py line 441) invokes the registered handler twice, speaking
the status reply twice; a named handler such as `"time"` is invoked
once.  This theorem evaluates the code at both inputs. -/
theorem C1_lambda_handler_invoked_twice :
    countEvent (Event.handlerInvoked "status") (process_line mOk st0 "status").2.1 = 2 ∧
    countEvent (Event.speak ("Current operational status: **Optimal**. All modules are functioning with 99% efficiency.")) (process_line mOk st0 "status").2.1 = 2 ∧
    countEvent (Event.handlerInvoked "time") (process_line mOk st0 "time").2.1 = 1 := by
  decide

/-- C2 is refuted by the code: dispatching `"set task buy milk"` once
evaluates the `"set"` lambda twice (src/EDITH.py line 439), so the
reminder store gains two records with task `"buy milk"` instead of one;
a subsequent `"clear tasks"` does empty the store. -/
theorem C2_set_task_gains_two_records :
    (process_line mOk st0 "set task buy milk").1.reminders =
      [⟨"buy milk", "2026-10-12 00:00"⟩, ⟨"buy milk", "2026-10-12 00:00"⟩] ∧
    (process_line mOk (process_line mOk st0 "set task buy milk").1 "clear tasks").1.reminders = [] := by
  decide

/-- C3 counterexample: dispatching the line `"set"` (empty argument)
does not speak the missing-parameter report at all; the `"set"` lambda
fails its `arg.startswith("task")` test and routes `"set "` to the
response resolver, which here answers through the generative brain. -/
theorem C3_counterexample :
    (process_line mOk st0 "set").2.1 =
      [Event.handlerInvoked "set", Event.handlerInvoked "set",
       Event.brainThink "set ", Event.speak "hello"] ∧
    Event.speak missingTaskMsg ∉ (process_line mOk st0 "set").2.1 := by
  decide

/-- C3 amended: dispatching `"set"` with an empty argument does not
report a missing parameter; the handler routes the reconstructed text
`"set "` to the response resolver (`edith_analyze`).  The
missing-parameter report is produced by `set_reminder` only when the
argument starts with `"task"` but carries no task text: dispatching
`"set task"` speaks the missing-parameter report (twice, by the
dispatcher's double evaluation) and leaves the store unchanged. -/
theorem C3_amended_empty_set_routes_to_resolver (m : GenModel) (st : EdithState) :
    process_line m st "set" =
      ((edith_analyze m st "set ").1,
       Event.handlerInvoked "set" :: Event.handlerInvoked "set" :: (edith_analyze m st "set ").2,
       false) ∧
    (process_line m st "set task").2.1 =
      [Event.handlerInvoked "set", Event.speak missingTaskMsg,
       Event.handlerInvoked "set", Event.speak missingTaskMsg] ∧
    (process_line m st "set task").1 = st := by
  refine ⟨rfl, rfl, rfl⟩

/-- A token outside the COMMANDS key set has no registered handler. -/
theorem commandsLookup_eq_none (m : GenModel) (a : String)
    (h : a ∉ registeredNames) : commandsLookup m a = none := by
  simp only [registeredNames, List.mem_cons, List.not_mem_nil, or_false, not_or] at h
  obtain ⟨h1, h2, h3, h4, h5, h6, h7, h8, h9, h10, h11, h12, h13, h14⟩ := h
  simp [commandsLookup, h1, h2, h3, h4, h5, h6, h7, h8, h9, h10, h11, h12, h13, h14]

/-- C4: For every non-empty input line whose first token is not a
registered command name, the full original line is passed verbatim to
the response resolver `edith_analyze` as free text, and no terminal
flag is raised. -/
theorem C4_unregistered_full_line_to_resolver (m : GenModel) (st : EdithState) (line : String)
    (hne : line ≠ "") (h : (splitAction line).1 ∉ registeredNames) :
    process_line m st line =
      ((edith_analyze m st line).1,
       Event.fallbackResolver line :: (edith_analyze m st line).2,
       false) := by
  have hl := commandsLookup_eq_none m (splitAction line).1 h
  simp only [process_line, hl]

/-- C4 witness: the scenario line `"tell me about quantum gravity"`. -/
theorem C4_witness :
    process_line mOk st0 "tell me about quantum gravity" =
      ((edith_analyze mOk st0 "tell me about quantum gravity").1,
       Event.fallbackResolver "tell me about quantum gravity" ::
         (edith_analyze mOk st0 "tell me about quantum gravity").2,
       false) :=
  C4_unregistered_full_line_to_resolver mOk st0 "tell me about quantum gravity"
    (by decide) (by decide)

/-- C7: the opener disambiguates its target by the single
contains-a-dot rule: with a `.` the target is a URL (the website path
is taken, and `https://` is prepended exactly when the target does not
already start with `http`); without a `.` the target is looked up as a
named local application; and dispatching `"open example.com"` hands the
browser exactly `https://example.com`. -/
theorem C7_open_target_disambiguation (m : GenModel) (st : EdithState) (target : String) :
    (strContains target "." = true → open_target st target = open_website st target) ∧
    (strContains target "." = false → open_target st target = open_application st target) ∧
    (strContains target "." = true → strStartsWith target "http" = false →
      Event.browserOpen ("https://" ++ target) ∈ (open_target st target).2) ∧
    Event.browserOpen "https://example.com" ∈ (process_line m st "open example.com").2.1 := by
  refine ⟨?_, ?_, ?_, ?_⟩
  · intro h; simp [open_target, h]
  · intro h; simp [open_target, h]
  · intro h hh
    simp [open_target, h, open_website, hh]
  · exact List.Mem.tail _ (List.Mem.tail _ (List.Mem.head _))

/-- C7 witness: concrete instantiation at target `"example.com"`. -/
theorem C7_witness :
    open_target st0 "example.com" = open_website st0 "example.com" ∧
    Event.browserOpen ("https://" ++ "example.com") ∈ (open_target st0 "example.com").2 ∧
    Event.browserOpen "https://example.com" ∈ (process_line mOk st0 "open example.com").2.1 :=
  ⟨(C7_open_target_disambiguation mOk st0 "example.com").1 (by decide),
   (C7_open_target_disambiguation mOk st0 "example.com").2.2.1 (by decide) (by decide),
   (C7_open_target_disambiguation mOk st0 "example.com").2.2.2⟩

/-- A line whose first token is one of the terminal names dispatches
with the stop flag raised (src/EDITH.py lines 447-448). -/
theorem process_line_stop_of_terminal (m : GenModel) (st : EdithState) (line : String)
    (h : (splitAction line).1 = "exit" ∨ (splitAction line).1 = "quit" ∨
         (splitAction line).1 = "shutdown") :
    (process_line m st line).2.2 = true := by
  simp only [process_line]
  rcases h with h | h | h <;> rw [h] <;> rfl

/-- C8: For every input line whose first token is a terminal command
name (`exit`, `quit`, `shutdown`), the session loop stops after that
command's handler returns: the remaining input is never acquired and no
further command is dispatched, so the session on `line :: rest` equals
the session on `[line]` alone. -/
theorem C8_terminal_command_stops_loop (m : GenModel) (st : EdithState)
    (line : String) (rest : List String)
    (h : (splitAction line).1 = "exit" ∨ (splitAction line).1 = "quit" ∨
         (splitAction line).1 = "shutdown") :
    sessionRun m st (line :: rest) = sessionRun m st [line] := by
  have hne : line ≠ "" := by
    intro he
    subst he
    rcases h with h | h | h <;> exact absurd h (by decide)
  have hstop := process_line_stop_of_terminal m st line h
  simp [sessionRun, hne, hstop]

/-- C8 witness: a session whose first line is `"exit"` never touches
the following `"time"` line. -/
theorem C8_witness :
    sessionRun mOk st0 ["exit", "time"] = sessionRun mOk st0 ["exit"] :=
  C8_terminal_command_stops_loop mOk st0 "exit" ["time"] (by decide)

/-- C10: if the generative model call inside `EdithBrain.think` raises,
`chat_history_ids` is left exactly as before the call (the whole brain
state is unchanged and the exception propagates); conversely the brain
state is reassigned only when `model.generate` completes successfully,
in which case the new history is exactly the generated ids.  A failed
generative exchange is therefore never appended to the state that
conditions later replies. -/
theorem C10_history_unchanged_on_generate_failure (m : GenModel) (b : BrainState)
    (input : String) :
    (∀ ids e, b.ready = true →
      m.encode (input ++ m.eosToken) = Except.ok ids →
      m.generate (histCat b.chatHistoryIds ids) = Except.error e →
      think m b input = (b, Except.error e)) ∧
    (∀ b2 r, think m b input = (b2, r) → b2 ≠ b →
      ∃ ids gen, m.encode (input ++ m.eosToken) = Except.ok ids ∧
        m.generate (histCat b.chatHistoryIds ids) = Except.ok gen ∧
        b2 = BrainState.mk b.ready (some gen)) := by
  constructor
  · intro ids e hb hen hgen
    simp [think, hb, hen, hgen]
  · intro b2 r heq hne
    by_cases hb : b.ready
    · rw [think, if_pos hb] at heq
      cases hen : m.encode (input ++ m.eosToken) with
      | error e =>
          rw [hen] at heq
          cases heq
          exact absurd rfl hne
      | ok ids =>
          rw [hen] at heq
          dsimp only at heq
          cases hgen : m.generate (histCat b.chatHistoryIds ids) with
          | error e =>
              rw [hgen] at heq
              dsimp only at heq
              cases heq
              exact absurd rfl hne
          | ok gen =>
              rw [hgen] at heq
              dsimp only at heq
              refine ⟨ids, gen, rfl, hgen, ?_⟩
              cases hdec : m.decode (gen.drop (histCat b.chatHistoryIds ids).length) with
              | error e => rw [hdec] at heq; cases heq; rfl
              | ok resp => rw [hdec] at heq; cases heq; rfl
    · rw [think, if_neg hb] at heq
      cases heq
      exact absurd rfl hne

/-- C10 witness: with a model whose `generate` raises `"boom"`, `think`
on input `"hi"` returns the untouched brain and the exception; with a
succeeding model the brain is reassigned to exactly the generated
ids. -/
theorem C10_witness :
    think mFail brainReady "hi" = (brainReady, Except.error "boom") ∧
    (∃ ids gen, mOk.encode ("hi" ++ mOk.eosToken) = Except.ok ids ∧
      mOk.generate (histCat brainReady.chatHistoryIds ids) = Except.ok gen ∧
      (think mOk brainReady "hi").1 = BrainState.mk brainReady.ready (some gen)) := by
  constructor
  · exact (C10_history_unchanged_on_generate_failure mFail brainReady "hi").1 [2] "boom"
      rfl rfl rfl
  · obtain ⟨ids, gen, h1, h2, h3⟩ :=
      (C10_history_unchanged_on_generate_failure mOk brainReady "hi").2
        (think mOk brainReady "hi").1 (think mOk brainReady "hi").2 rfl (by decide)
    exact ⟨ids, gen, h1, h2, h3⟩

/-- The `if`/`elif` chain of `edith_analyze` is first-match resolution
over the ordered `rules` list, with the brain fallback when no rule
matches. -/
theorem analyze_eq_resolveCanned (m : GenModel) (st : EdithState) (input : String) :
    edith_analyze m st input =
      match resolveCanned (lowerStr input) rules with
      | some resp => (st, [Event.speak resp])
      | none => analyzeFallback m st input := by
  simp only [edith_analyze, resolveCanned, rules, ruleMatches]
  split_ifs <;> rfl

/-- First-match resolution answers with the reply of some matching rule
no later than any given matching index. -/
theorem resolveCanned_least (low : String) :
    ∀ (l : List (List String × String)) (i : Nat) (hi : i < l.length),
      ruleMatches low (l.get ⟨i, hi⟩) = true →
      ∃ k, ∃ hk : k < l.length, k ≤ i ∧ ruleMatches low (l.get ⟨k, hk⟩) = true ∧
        resolveCanned low l = some ((l.get ⟨k, hk⟩).2) := by
  intro l
  induction l with
  | nil => intro i hi _; exact absurd hi (Nat.not_lt_zero i)
  | cons r rs ih =>
      intro i hi hm
      by_cases hr : ruleMatches low r = true
      · refine ⟨0, Nat.succ_pos _, Nat.zero_le _, ?_, ?_⟩
        · simpa using hr
        · simp [resolveCanned, hr]
      · have hr' : ruleMatches low r = false := by
          revert hr; cases ruleMatches low r <;> simp
        cases i with
        | zero => exact absurd (by simpa using hm) hr
        | succ i' =>
            have hi' : i' < rs.length := Nat.lt_of_succ_lt_succ hi
            have hm' : ruleMatches low (rs.get ⟨i', hi'⟩) = true := by
              simpa using hm
            obtain ⟨k, hk, hki, hkm, heq⟩ := ih i' hi' hm'
            refine ⟨k + 1, Nat.succ_lt_succ hk, Nat.succ_le_succ hki, ?_, ?_⟩
            · simpa using hkm
            · simp [resolveCanned, hr', heq]

/-- The five canned replies are pairwise distinct. -/
theorem rules_replies_distinct :
    ∀ a b : Fin rules.length, a.val < b.val → (rules.get a).2 ≠ (rules.get b).2 := by
  decide

/-- C5: the response resolver evaluates its keyword rules in fixed
priority order with first-match-wins semantics: whenever two distinct
rules `i < j` both match the lower-cased input, the resolver answers
with the canned reply of a matching rule no later than `i` — never the
reply of the later rule `j` — the state is untouched, and the
generative capability is not invoked; and the scenario input
`"how are you"` yields the canned status reply. -/
theorem C5_rule_priority_first_match (m : GenModel) (st : EdithState) (input : String)
    (i j : Nat) (hij : i < j) (hj : j < rules.length)
    (hi : ruleMatches (lowerStr input) (rules.get ⟨i, Nat.lt_trans hij hj⟩) = true)
    (hjm : ruleMatches (lowerStr input) (rules.get ⟨j, hj⟩) = true) :
    (∃ k, ∃ hk : k < rules.length, k ≤ i ∧
      ruleMatches (lowerStr input) (rules.get ⟨k, hk⟩) = true ∧
      edith_analyze m st input = (st, [Event.speak ((rules.get ⟨k, hk⟩).2)]) ∧
      (rules.get ⟨k, hk⟩).2 ≠ (rules.get ⟨j, hj⟩).2 ∧
      Event.brainThink input ∉ (edith_analyze m st input).2) ∧
    edith_analyze m st "how are you" = (st, [Event.speak statusReply]) := by
  obtain ⟨k, hk, hki, hkm, heq⟩ :=
    resolveCanned_least (lowerStr input) rules i (Nat.lt_trans hij hj) hi
  have hA := analyze_eq_resolveCanned m st input
  rw [heq] at hA
  refine ⟨⟨k, hk, hki, hkm, hA, ?_, ?_⟩, rfl⟩
  · exact rules_replies_distinct ⟨k, hk⟩ ⟨j, hj⟩ (Nat.lt_of_le_of_lt hki hij)
  · rw [hA]; simp

/-- C5 witness: `"condition check for security threat"` matches rule 0
(keyword `condition`) and rule 1 (keyword `security threat`); the
earlier rule wins. -/
theorem C5_witness :
    (∃ k, ∃ hk : k < rules.length, k ≤ 0 ∧
      ruleMatches (lowerStr "condition check for security threat") (rules.get ⟨k, hk⟩) = true ∧
      edith_analyze mOk st0 "condition check for security threat" =
        (st0, [Event.speak ((rules.get ⟨k, hk⟩).2)]) ∧
      (rules.get ⟨k, hk⟩).2 ≠ (rules.get ⟨1, by decide⟩).2 ∧
      Event.brainThink "condition check for security threat" ∉
        (edith_analyze mOk st0 "condition check for security threat").2) ∧
    edith_analyze mOk st0 "how are you" = (st0, [Event.speak statusReply]) :=
  C5_rule_priority_first_match mOk st0 "condition check for security threat" 0 1
    (by decide) (by decide) (by decide) (by decide)

/-- A list is a Boolean prefix of itself followed by anything. -/
theorem isPrefixOf_self_append (l t : List Char) : l.isPrefixOf (l ++ t) = true := by
  induction l with
  | nil => simp [List.isPrefixOf]
  | cons c cs ih => simp [List.isPrefixOf, ih]

/-- The fixed offline reply never coincides with a tagged
runtime-failure reply, whatever the underlying cause text: the two
error reports are distinguishable. -/
theorem offlineMsg_ne_tagged (e : String) : offlineMsg ≠ aiErrorTag ++ e := by
  intro h
  have hpre : strStartsWith offlineMsg aiErrorTag = true := by
    rw [h]
    show aiErrorTag.data.isPrefixOf (aiErrorTag.data ++ e.data) = true
    exact isPrefixOf_self_append _ _
  exact absurd hpre (by decide)

/-- C6: when no deterministic rule matches, the resolver's generative
path never raises to its caller and yields two distinct,
distinguishable error reports: a brain that failed to initialise
produces the fixed offline message, while a brain whose generation
raises produces the generic failure message tagged with the underlying
cause; the two messages differ for every cause. -/
theorem C6_generative_error_reports (m : GenModel) (st : EdithState) (input : String)
    (ids : List Nat) (e : String)
    (hnr : resolveCanned (lowerStr input) rules = none) :
    (st.brain.ready = false →
      edith_analyze m st input = (st, [Event.brainThink input, Event.speak offlineMsg])) ∧
    (st.brain.ready = true →
      m.encode (input ++ m.eosToken) = Except.ok ids →
      m.generate (histCat st.brain.chatHistoryIds ids) = Except.error e →
      edith_analyze m st input =
        (st, [Event.brainThink input,
              Event.consolePrint ("Error in edith_analyze: " ++ e),
              Event.speak (aiErrorTag ++ e)])) ∧
    (∀ cause, offlineMsg ≠ aiErrorTag ++ cause) := by
  have hA := analyze_eq_resolveCanned m st input
  rw [hnr] at hA
  refine ⟨?_, ?_, offlineMsg_ne_tagged⟩
  · intro hb
    rw [hA]
    simp [analyzeFallback, think, hb, withBrain]
  · intro hb hen hgen
    rw [hA]
    simp [analyzeFallback, think, hb, hen, hgen, withBrain]

/-- C6 witness: on the scenario input (matching no rule), an offline
brain yields the fixed offline message and a raising generation yields
the tagged report; the reports differ. -/
theorem C6_witness :
    edith_analyze mOk stOffline "tell me about quantum gravity" =
      (stOffline, [Event.brainThink "tell me about quantum gravity", Event.speak offlineMsg]) ∧
    edith_analyze mFail st0 "tell me about quantum gravity" =
      (st0, [Event.brainThink "tell me about quantum gravity",
             Event.consolePrint ("Error in edith_analyze: " ++ "boom"),
             Event.speak (aiErrorTag ++ "boom")]) ∧
    offlineMsg ≠ aiErrorTag ++ "boom" :=
  ⟨(C6_generative_error_reports mOk stOffline "tell me about quantum gravity" [29] "boom"
      (by decide)).1 rfl,
   (C6_generative_error_reports mFail st0 "tell me about quantum gravity" [29] "boom"
      (by decide)).2.1 rfl rfl rfl,
   (C6_generative_error_reports mOk st0 "tell me about quantum gravity" [29] "boom"
      (by decide)).2.2 "boom"⟩
